import Mathlib

/-!
Shallow embedding of the intent dispatch and response composition pipeline of
the telekom/voice-skill-sdk repository (files `skill_sdk/intents.py`,
`skill_sdk/skill.py`, `skill_sdk/tracing.py`, `skill_sdk/log.py`), together
with theorems settling the frozen claims about its specification.

Python dictionaries are modelled as association lists with insertion order
(Python 3.7 dicts preserve insertion order); opaque Python objects such as
push-message payloads and handler callables are modelled by concrete types
with decidable equality, with Python object identity modelled as equality.
-/

namespace SkillSdk

/-! ## Responses (value objects; fields used by the claims)

The `Response` class lives in `skill_sdk/responses.py`; the fields used by the
dispatch pipeline are its text, its type tag and its optional push
notification. -/

/-- Response type tags `RESPONSE_TYPE_TELL`, `RESPONSE_TYPE_ASK`,
`RESPONSE_TYPE_ASK_FREETEXT`. -/
inductive ResponseType where
  | tell
  | ask
  | askFreetext
deriving DecidableEq, Repr

/-- A push-message payload; an opaque Python object, modelled by `Nat`. -/
abbrev Payload := Nat

/-- The dict `{"targetName": ..., "messagePayload": ...}` attached to a
response by `Intent._append_push_messages`. -/
structure PushNotification where
  targetName : String
  messagePayload : Payload
deriving DecidableEq, Repr

/-- The fields of `skill_sdk.responses.Response` that the dispatch pipeline
reads or writes. -/
structure Response where
  text : String
  type_ : ResponseType := .tell
  push_notification : Option PushNotification := none
deriving DecidableEq, Repr

/-! ## Push messages (`Intent._append_push_messages`, intents.py:232-247)

`Context.push_messages` is a `defaultdict(list)` mapping a target name to the
list of payloads pushed for it; modelled as an association list in insertion
order. -/

/-- The context's `push_messages` mapping. -/
abbrev PushMessages := List (String × List Payload)

/-- The `messages` list built by the two nested `for` loops of
`Intent._append_push_messages`: one `(name, payload)` pair per payload, in
iteration order. -/
def flatten_push_messages (pm : PushMessages) : List (String × Payload) :=
  pm.flatMap fun p => p.2.map fun payload => (p.1, payload)

/-- Outcome of `Intent._append_push_messages`: either the returned response,
or a raised `ValueError`.  Because the method mutates `response` in place
before raising, the `valueError` case carries the state of the response
object at the moment of the raise. -/
inductive AppendResult where
  | ok (response : Response)
  | valueError (response : Response)
deriving DecidableEq, Repr

/-- Model of `Intent._append_push_messages(_context, response)` (intents.py:232-247):
flattens the context's push messages, returns the response unchanged when
there are none, otherwise pops the last message, sets
`response.push_notification` to it, and raises `ValueError` when further
messages remain. -/
def append_push_messages (pm : PushMessages) (response : Response) : AppendResult :=
  let messages := flatten_push_messages pm
  match messages.getLast? with
  | none => .ok response
  | some message =>
      let response := { response with
        push_notification := some ⟨message.1, message.2⟩ }
      if messages.length ≥ 2 then .valueError response else .ok response

/-! ## Intent registry (`Skill.get_intent`, skill.py:64-72) -/

/-- An intent handler callable: opaque, identified by `id` (Python object
identity modelled as equality on `id`), with the `inspect.isfunction` flag
checked by `Skill.__register`. -/
structure Handler where
  id : Nat
  is_function : Bool := true
deriving DecidableEq, Repr

/-- The `Skill.intents` mapping (name to handler), insertion-ordered. -/
abbrev Registry := List (String × Handler)

/-- Python `dict.get(name)` on the registry. -/
def Registry.get (reg : Registry) (name : String) : Option Handler :=
  (reg.find? fun p => p.1 = name).map (·.2)

/-- The fallback intent name (skill.py:35). -/
def FALLBACK_INTENT : String := "FALLBACK_INTENT"

/-- Model of `Skill.get_intent` (skill.py:64-72):
`self.intents.get(name, self.intents.get(FALLBACK_INTENT))`. -/
def get_intent (reg : Registry) (name : String) : Option Handler :=
  match reg.get name with
  | some h => some h
  | none => reg.get FALLBACK_INTENT

/-! ## Return-value normalization (`Intent._log_return_value`, intents.py:249-267)
and intent invocation (`Intent.__call__`, intents.py:269-296) -/

/-- The fields of `skill_sdk.responses.ErrorResponse` (a plain error value,
not a `Response` subclass): an error code and a text. -/
structure ErrorResponse where
  code : Int
  text : String
deriving DecidableEq, Repr

/-- The possible runtime types of an intent handler's return value, as
distinguished by the `isinstance` checks of `Intent._log_return_value`. -/
inductive HandlerResult where
  | response (r : Response)
  | errorResponse (e : ErrorResponse)
  | str (s : String)
  | other
deriving DecidableEq, Repr

/-- A normalized return value: a `Response` or an `ErrorResponse`. -/
inductive NormalizedResult where
  | response (r : Response)
  | errorResponse (e : ErrorResponse)
deriving DecidableEq, Repr

/-- Model of `Intent._log_return_value(self, result)` (intents.py:249-267): a
`Response` goes through `_append_push_messages`; an `ErrorResponse` is
returned unchanged; a string is wrapped into `Response(result)` (a TELL
response) and goes through `_append_push_messages`; anything else raises
`ValueError` (modelled as `.error ()`; a `ValueError` escaping from
`_append_push_messages` is the error case of the match). -/
def log_return_value (pm : PushMessages) : HandlerResult → Except Unit NormalizedResult
  | .response r =>
      match append_push_messages pm r with
      | .ok merged => .ok (.response merged)
      | .valueError _ => .error ()
  | .errorResponse e => .ok (.errorResponse e)
  | .str s =>
      match append_push_messages pm { text := s, type_ := .tell } with
      | .ok merged => .ok (.response merged)
      | .valueError _ => .error ()
  | .other => .error ()

/-- The exception types caught by `Intent.__call__` (intents.py:288):
`RequestException`, `HTTPError`, `CircuitBreakerError`. -/
inductive CaughtExc where
  | requestException
  | httpError
  | circuitBreakerError
deriving DecidableEq, Repr

/-- What the handler invocation `self.implementation(_context)` does: return
a value, raise one of the caught HTTP exception types, or raise any other
exception (carried opaquely as a message). -/
inductive HandlerOutcome where
  | returns (result : HandlerResult)
  | raises (e : CaughtExc)
  | raisesOther (msg : String)
deriving DecidableEq, Repr

/-- Outcome of `Intent.__call__`: a normalized return value, a raised
`ValueError` (from normalization or from the push-message merge), or any
other exception propagated to the caller. -/
inductive CallResult where
  | returns (n : NormalizedResult)
  | raisesValueError
  | raisesOther (msg : String)
deriving DecidableEq, Repr

/-- The canned error text `_('GENERIC_HTTP_ERROR_RESPONSE')` (intents.py:291),
under the identity (null) translation. -/
def GENERIC_HTTP_ERROR_RESPONSE : String := "GENERIC_HTTP_ERROR_RESPONSE"

/-- Model of `Intent.__call__(self, _context)` (intents.py:269-296): the handler's
return value is normalized by `_log_return_value` (a `ValueError` from it is
re-raised by the final `except Exception` clause); `RequestException`,
`HTTPError` and `CircuitBreakerError` are caught and replaced by
`Response(_('GENERIC_HTTP_ERROR_RESPONSE'))` merged with the context's push
messages (a `ValueError` raised by that merge inside the except clause
propagates); every other exception propagates unchanged. -/
def intent_call (pm : PushMessages) (outcome : HandlerOutcome) : CallResult :=
  match outcome with
  | .returns result =>
      match log_return_value pm result with
      | .ok n => .returns n
      | .error () => .raisesValueError
  | .raises _ =>
      match append_push_messages pm { text := GENERIC_HTTP_ERROR_RESPONSE, type_ := .tell } with
      | .ok merged => .returns (.response merged)
      | .valueError _ => .raisesValueError
  | .raisesOther msg => .raisesOther msg

/-! ## Registering handlers (`Skill.include`, skill.py:74-118, and
`Skill.__register`, skill.py:120-143) -/

/-- Modelled from the spec: `handlers.intent_handler` (skill_sdk/handlers.py
is not under src/).  The spec describes a registry entry as an immutable
name-to-callable pair, so decorating the callable is modelled as the
identity on the callable. -/
def intent_handler_decorate (handler : Handler) : Handler := handler

/-- The list comprehension of skill.py:101-105: the first registered intent
name whose implementation is this handler (`None` when there is none,
matching the `IndexError` branch that keeps `registered = ""`). -/
def find_registered (reg : Registry) (handler : Handler) : Option String :=
  (reg.find? fun p => p.2 = handler).map (·.1)

/-- Outcome of `Skill.include` / `Skill.__register`: the updated registry, or
a raised `ValueError` carrying the (unchanged) registry state at the
raise. -/
inductive IncludeResult where
  | ok (reg : Registry)
  | valueError (reg : Registry)
deriving DecidableEq, Repr

/-- Python dict assignment `d[key] = v`: overwrite in place when the key
exists, append otherwise. -/
def dict_insert (reg : Registry) (key : String) (v : Handler) : Registry :=
  if reg.any fun p => p.1 = key then
    reg.map fun p => if p.1 = key then (key, v) else p
  else reg ++ [(key, v)]

/-- Model of `Skill.__register` (skill.py:120-143): rejects an empty intent name, a
name already registered, and a handler that is not a function
(`inspect.isfunction`); otherwise stores the decorated handler under the
name. -/
def register_intent (reg : Registry) (intent : String) (handler : Handler) : IncludeResult :=
  if intent = "" then .valueError reg
  else if reg.any fun p => p.1 = intent then .valueError reg
  else if handler.is_function = false then .valueError reg
  else .ok (dict_insert reg intent (intent_handler_decorate handler))

/-- Model of `Skill.include` (skill.py:74-118): raises `ValueError` when the name
already maps to a different handler; computes the first name already mapping
to this handler; registers via `Skill.__register` only when an intent name
was given (non-empty, Python truthiness) and the handler is not yet
registered under any name.  The assignment on skill.py:115 writes the same
key/value as `Skill.__register` just did, so the combined effect is a single
insertion. -/
def skill_include (reg : Registry) (intent : Option String) (handler : Handler) :
    IncludeResult :=
  let conflict : Bool :=
    match intent with
    | some i =>
        match reg.get i with
        | some existing => existing != handler
        | none => false
    | none => false
  if conflict then .valueError reg
  else
    let registered := (find_registered reg handler).getD ""
    match intent with
    | some i =>
        if i != "" && registered == "" then register_intent reg i handler
        else .ok reg
    | none => .ok reg

/-! ## Python dict operations on insertion-ordered association lists -/

/-- Python `d.get(key)` (`None` when missing). -/
def PyDict.get {α : Type} (d : List (String × α)) (key : String) : Option α :=
  (d.find? fun p => p.1 = key).map (·.2)

/-- Python `d[key] = v`: overwrite in place when the key exists, append
otherwise. -/
def PyDict.set {α : Type} (d : List (String × α)) (key : String) (v : α) :
    List (String × α) :=
  if d.any fun p => p.1 = key then
    d.map fun p => if p.1 = key then (key, v) else p
  else d ++ [(key, v)]

/-- Python `del d[key]`. -/
def PyDict.erase {α : Type} (d : List (String × α)) (key : String) :
    List (String × α) :=
  d.filter fun p => p.1 ≠ key

/-- Python `dict(pairs)`: build a dict from a pair list, later pairs
overwriting earlier ones. -/
def PyDict.ofList {α : Type} (l : List (String × α)) : List (String × α) :=
  l.foldl (fun d p => PyDict.set d p.1 p.2) []

/-! ## Context construction (`Context.__init__`, intents.py:77-119) -/

/-- Modelled from the spec: `skill_sdk.sessions.Session` (sessions.py is not
under src/) — the session data: an identifier, a new/existing flag, and a
key-value attribute bag that is empty when not given (`Session(None, True)`,
intents.py:110). -/
structure Session where
  session_id : Option String
  new_session : Bool
  attributes : List (String × String) := []
deriving DecidableEq, Repr

/-- The request's `session` JSON object as read by `Context.__init__`:
`new` and `id` by subscript, `attributes` via `.get` with default `{}`. -/
structure SessionJson where
  new : Bool
  id : Option String
  attributes : Option (List (String × String)) := none
deriving DecidableEq, Repr

/-- The fields of the request's `context` JSON object that C7 is about, as
read by `Context.__init__` (`.get` returning `None` when absent).  Token and
attributesV2 entry values are opaque Python objects, modelled as strings. -/
structure RequestContext where
  intent : Option String := none
  locale : Option String := none
  tokens : Option (List (String × String)) := none
  attributesV2 : Option (List (String × String)) := none
deriving DecidableEq, Repr

/-- The inbound request JSON: a `context` object and an optional `session`
object (`none` also covers a falsy empty session dict, which the
`if session:` test on intents.py:101 treats as absent). -/
structure RequestJson where
  context : RequestContext
  session : Option SessionJson := none
deriving DecidableEq, Repr

/-- The `Context` fields derived by `Context.__init__` that C7 is about;
`locale` is the value stored under the `language` key of `self.locale`. -/
@[ext]
structure ContextModel where
  intent_name : Option String
  locale : Option String
  tokens : List (String × String)
  attributesV2 : List (String × String)
  session : Session
deriving DecidableEq, Repr

/-- Model of `Context.__init__` (intents.py:77-119), restricted to the derivation of
`intent_name`, `locale`, `tokens`, `attributesV2` and `session`: tokens and
attributesV2 default to `{}`; a present (truthy) session yields
`Session(id_, new, attrs)` with `attrs = session.get('attributes', {})`;
otherwise `Session(None, True)`. -/
def context_init (req : RequestJson) : ContextModel :=
  { intent_name := req.context.intent
    locale := req.context.locale
    tokens := req.context.tokens.getD []
    attributesV2 := req.context.attributesV2.getD []
    session :=
      match req.session with
      | some s =>
          { session_id := s.id, new_session := s.new,
            attributes := s.attributes.getD [] }
      | none => { session_id := none, new_session := true } }

/-! ## Reprompt responses

`skill_sdk.responses.Reprompt` lives in responses.py, which is not under
src/; it is modelled from the spec ("Session reprompt counters are strings
incremented per named entity and reset when a terminal (tell) response is
produced") with the behavior fixed by tests/response_test.py:206-228. -/

/-- The session attribute bag holding the string counters. -/
abbrev SessionBag := List (String × String)

/-- Modelled from the spec: the per-name counter key of a `Reprompt` named
after the current intent and an optional entity
(`TELEKOM_Clock_GetTime_reprompt_count`,
`TELEKOM_Clock_GetTime_Time_reprompt_count` in the tests). -/
def reprompt_name (intent_name : String) (entity : Option String) : String :=
  match entity with
  | some e => intent_name ++ "_" ++ e ++ "_reprompt_count"
  | none => intent_name ++ "_reprompt_count"

/-- Python `int(value)` on a session counter value: the number denoted by a
non-empty decimal digit string, `ValueError` (`none`) otherwise.  The
counters only ever hold canonical decimal strings written by
`str(reprompt_count)`, so signs, whitespace and underscores accepted by
Python's `int` are never exercised. -/
def parse_count (s : String) : Option Nat :=
  if s.data ≠ [] ∧ s.data.all Char.isDigit then
    some (s.data.foldl (fun n c => n * 10 + (c.toNat - 48)) 0)
  else none

/-- Modelled from the spec: producing a `Reprompt` response.  The counter for
the name is read from the session: 1 when absent or not a number
(`int(...)` raising `ValueError`), the stored value plus one otherwise.
While a non-zero configured maximum is not exceeded, the counter is stored
back as a string and an ASK response with the reprompt text is produced;
once the incremented count exceeds the non-zero maximum, the counter is
removed from the session and a terminal TELL response with the stop text is
produced. -/
def reprompt (sess : SessionBag) (intent_name : String) (entity : Option String)
    (text stop_text : String) (max_reprompts : Nat) : SessionBag × Response :=
  let name := reprompt_name intent_name entity
  let count :=
    match PyDict.get sess name with
    | some v =>
        match parse_count v with
        | some n => n + 1
        | none => 1
    | none => 1
  if max_reprompts ≠ 0 ∧ count > max_reprompts then
    (PyDict.erase sess name, { text := stop_text, type_ := .tell })
  else
    (PyDict.set sess name (toString count), { text := text, type_ := .ask })

/-! ## B3 header propagation (`Codec`, tracing.py:86-121) -/

/-- Header name `Codec.trace_header` (tracing.py:90). -/
def trace_header : String := "X-B3-TraceId"

/-- Header name `Codec.span_header` (tracing.py:91). -/
def span_header : String := "X-B3-SpanId"

/-- Header name `Codec.testing_header` (tracing.py:92). -/
def testing_header : String := "X-Testing"

/-- A `SpanContext` (tracing.py:25-34): trace id, span id and testing flag
are arbitrary Python values, possibly `None`, modelled as `Option String`. -/
structure SpanContextM where
  trace_id : Option String
  span_id : Option String
  testing : Option String
deriving DecidableEq, Repr

/-- A propagation carrier: a Python dict of headers (values possibly
`None`), or any non-dict object. -/
inductive Carrier where
  | dict (entries : List (String × Option String))
  | nonDict
deriving DecidableEq, Repr

/-- Python `str.lower()` on an (ASCII) header name. -/
def py_lower (s : String) : String :=
  String.mk (s.data.map Char.toLower)

/-- Model of `Codec.inject` (tracing.py:94-106): `InvalidCarrierException` unless the
carrier is a dict; otherwise the three headers are assigned the span
context's fields. -/
def codec_inject (span_context : SpanContextM) (carrier : Carrier) :
    Except Unit (List (String × Option String)) :=
  match carrier with
  | .nonDict => .error ()
  | .dict entries =>
      .ok (PyDict.set (PyDict.set (PyDict.set entries
        trace_header span_context.trace_id)
        span_header span_context.span_id)
        testing_header span_context.testing)

/-- Model of `Codec.extract` (tracing.py:108-121): `InvalidCarrierException` unless
the carrier is a dict; otherwise builds `lowercase_keys` (lowercased key to
original key, later duplicates winning) and reads each header through it
(`carrier.get(None)` is `None` when the lowercased header name is absent). -/
def codec_extract (carrier : Carrier) : Except Unit SpanContextM :=
  match carrier with
  | .nonDict => .error ()
  | .dict entries =>
      let lowercase_keys := PyDict.ofList (entries.map fun p => (py_lower p.1, p.1))
      let header_value := fun (header : String) =>
        match PyDict.get lowercase_keys (py_lower header) with
        | some original_key => (PyDict.get entries original_key).getD none
        | none => none
      .ok { trace_id := header_value trace_header,
            span_id := header_value span_header,
            testing := header_value testing_header }

/-! ## Log record trimming (log.py:180-207) -/

/-- A JSON-like Python value passed to `prepare_for_logging`: dicts, lists,
tuples, strings, and non-string scalars (modelled by `Int`). -/
inductive LogValue where
  | str (s : String)
  | scalar (n : Int)
  | dict (entries : List (String × LogValue))
  | list (elems : List LogValue)
  | tuple (elems : List LogValue)
deriving Repr

/-- Model of `log._trim` on a string (log.py:180-186): unchanged when shorter than
`config.settings.LOG_ENTRY_MAX_STRING` (config.py is not under src/; the
setting is the parameter `maxLen`), otherwise the first `maxLen` characters
followed by `...`.  On a non-string `_trim` is the identity: that is the
`scalar` arm of `log_copy`. -/
def trim_string (maxLen : Nat) (s : String) : String :=
  if s.length < maxLen then s else String.mk (s.data.take maxLen) ++ "..."

mutual

/-- Model of `log._copy` (log.py:189-197): recursively copy a dict keeping its keys,
copy a list or tuple into a list, `_trim` everything else. -/
def log_copy (maxLen : Nat) : LogValue → LogValue
  | .str s => .str (trim_string maxLen s)
  | .scalar n => .scalar n
  | .dict entries => .dict (log_copy_entries maxLen entries)
  | .list elems => .list (log_copy_list maxLen elems)
  | .tuple elems => .list (log_copy_list maxLen elems)

/-- The dict comprehension of log.py:193 (values copied, keys verbatim). -/
def log_copy_entries (maxLen : Nat) :
    List (String × LogValue) → List (String × LogValue)
  | [] => []
  | (k, v) :: rest => (k, log_copy maxLen v) :: log_copy_entries maxLen rest

/-- The list comprehension of log.py:195. -/
def log_copy_list (maxLen : Nat) : List LogValue → List LogValue
  | [] => []
  | v :: rest => log_copy maxLen v :: log_copy_list maxLen rest

end

/-- Model of `log.prepare_for_logging` (log.py:200-207). -/
def prepare_for_logging (maxLen : Nat) (record : LogValue) : LogValue :=
  log_copy maxLen record

mutual

/-- Every string value in the tree has length at most `bound` (dict keys are
copied verbatim by `_copy` and are not subject to the bound). -/
def strings_bounded (bound : Nat) : LogValue → Bool
  | .str s => decide (s.length ≤ bound)
  | .scalar _ => true
  | .dict entries => strings_bounded_entries bound entries
  | .list elems => strings_bounded_list bound elems
  | .tuple elems => strings_bounded_list bound elems

/-- Predicate `strings_bounded` over dict entries. -/
def strings_bounded_entries (bound : Nat) : List (String × LogValue) → Bool
  | [] => true
  | (_, v) :: rest => strings_bounded bound v && strings_bounded_entries bound rest

/-- Predicate `strings_bounded` over list elements. -/
def strings_bounded_list (bound : Nat) : List LogValue → Bool
  | [] => true
  | v :: rest => strings_bounded bound v && strings_bounded_list bound rest

end

/-- Helper: `log_copy_entries` is a map over the entries that keeps every key. -/
theorem log_copy_entries_eq_map (m : Nat) (es : List (String × LogValue)) :
    log_copy_entries m es = es.map fun p => (p.1, log_copy m p.2) := by
  induction es with
  | nil => rfl
  | cons p rest ih => cases p; rw [log_copy_entries, ih]; rfl

/-- Helper: `log_copy_list` is a map over the elements. -/
theorem log_copy_list_eq_map (m : Nat) (l : List LogValue) :
    log_copy_list m l = l.map (log_copy m) := by
  induction l with
  | nil => rfl
  | cons v rest ih => rw [log_copy_list, ih]; rfl

/-- A trimmed string is at most `maxLen + 3` characters long. -/
theorem trim_string_length (m : Nat) (s : String) :
    (trim_string m s).length ≤ m + 3 := by
  unfold trim_string
  split
  · omega
  · rw [String.length_append]
    have h1 : (String.mk (s.data.take m)).length = (s.data.take m).length := rfl
    have h2 : ("..." : String).length = 3 := rfl
    have := List.length_take_le m s.data
    omega

mutual

/-- Every string value of a copied record is at most `maxLen + 3` long. -/
theorem strings_bounded_log_copy (m : Nat) :
    ∀ v, strings_bounded (m + 3) (log_copy m v) = true
  | .str s => by
      simp [log_copy, strings_bounded, trim_string_length m s]
  | .scalar n => rfl
  | .dict es => by
      rw [log_copy, strings_bounded]
      exact strings_bounded_entries_log_copy m es
  | .list l => by
      rw [log_copy, strings_bounded]
      exact strings_bounded_list_log_copy m l
  | .tuple l => by
      rw [log_copy, strings_bounded]
      exact strings_bounded_list_log_copy m l

/-- Helper: `strings_bounded_log_copy` over dict entries. -/
theorem strings_bounded_entries_log_copy (m : Nat) :
    ∀ es, strings_bounded_entries (m + 3) (log_copy_entries m es) = true
  | [] => rfl
  | (k, v) :: rest => by
      rw [log_copy_entries, strings_bounded_entries]
      rw [strings_bounded_log_copy m v, strings_bounded_entries_log_copy m rest]
      rfl

/-- Helper: `strings_bounded_log_copy` over list elements. -/
theorem strings_bounded_list_log_copy (m : Nat) :
    ∀ l, strings_bounded_list (m + 3) (log_copy_list m l) = true
  | [] => rfl
  | v :: rest => by
      rw [log_copy_list, strings_bounded_list]
      rw [strings_bounded_log_copy m v, strings_bounded_list_log_copy m rest]
      rfl

end

/-- A successful push-message merge only touches `push_notification`: the
response's text and type tag survive. -/
theorem append_push_messages_ok_preserves (pm : PushMessages) (r r' : Response)
    (h : append_push_messages pm r = .ok r') :
    r'.text = r.text ∧ r'.type_ = r.type_ := by
  rcases hlast : (flatten_push_messages pm).getLast? with _ | m
  · simp [append_push_messages, hlast] at h
    simp [← h]
  · by_cases hlen : (flatten_push_messages pm).length ≥ 2
    · simp [append_push_messages, hlast, hlen] at h
    · simp [append_push_messages, hlast, hlen] at h
      simp [← h]

end SkillSdk

namespace SkillSdk

/-- C1: For every context and response passed to
`Intent._append_push_messages`: no payload means the response is returned
unchanged; exactly one payload is attached as the response's
`push_notification` (target name and payload) and the response returned;
more than one payload in total raises `ValueError`. -/
theorem append_push_messages_cases (pm : PushMessages) (r : Response) :
    (flatten_push_messages pm = [] → append_push_messages pm r = .ok r) ∧
    (∀ nm p, flatten_push_messages pm = [(nm, p)] →
      append_push_messages pm r =
        .ok { r with push_notification := some ⟨nm, p⟩ }) ∧
    ((flatten_push_messages pm).length ≥ 2 →
      ∃ r', append_push_messages pm r = .valueError r') := by
  refine ⟨fun h => ?_, fun nm p h => ?_, fun h => ?_⟩
  · simp [append_push_messages, h]
  · simp [append_push_messages, h]
  · rcases hlast : (flatten_push_messages pm).getLast? with _ | m
    · rw [List.getLast?_eq_none_iff] at hlast
      simp [hlast] at h
    · exact ⟨{ r with push_notification := some ⟨m.1, m.2⟩ },
        by simp [append_push_messages, hlast, h]⟩

/-- Witness for C1: with no messages the response comes back unchanged, one
payload is attached, and two payloads raise. -/
theorem append_push_messages_cases_witness :
    append_push_messages [] { text := "t" } = .ok { text := "t" } ∧
    append_push_messages [("dev", [7])] { text := "t" } =
      .ok { text := "t", push_notification := some ⟨"dev", 7⟩ } ∧
    ∃ r', append_push_messages [("dev", [7, 8])] { text := "t" } = .valueError r' := by
  refine ⟨?_, ?_, ?_⟩
  · exact (append_push_messages_cases [] { text := "t" }).1 (by decide)
  · exact (append_push_messages_cases [("dev", [7])] { text := "t" }).2.1 "dev" 7 (by decide)
  · exact (append_push_messages_cases [("dev", [7, 8])] { text := "t" }).2.2 (by decide)

/-- C8: When `Intent._append_push_messages` raises `ValueError` (more than
one push payload), the response has already been mutated: at the raise its
`push_notification` is set to the last message of the flattened push
messages, so the attach is not atomic. -/
theorem append_push_messages_not_atomic (pm : PushMessages) (r : Response)
    (m : String × Payload)
    (hlen : (flatten_push_messages pm).length ≥ 2)
    (hlast : (flatten_push_messages pm).getLast? = some m) :
    append_push_messages pm r =
      .valueError { r with push_notification := some ⟨m.1, m.2⟩ } := by
  simp [append_push_messages, hlast, hlen]

/-- Witness for C8: with payloads 7 then 8 for target "dev", the raise leaves
the response holding payload 8. -/
theorem append_push_messages_not_atomic_witness :
    append_push_messages [("dev", [7, 8])] { text := "t" } =
      .valueError { text := "t", push_notification := some ⟨"dev", 8⟩ } :=
  append_push_messages_not_atomic [("dev", [7, 8])] { text := "t" } ("dev", 8)
    (by decide) (by decide)

/-- C3: `Skill.get_intent` returns the handler registered under the name
when one exists, else the handler under `FALLBACK_INTENT`, else `none`. -/
theorem get_intent_resolution (reg : Registry) (name : String) :
    (∀ h, reg.get name = some h → get_intent reg name = some h) ∧
    (reg.get name = none → ∀ hf, reg.get FALLBACK_INTENT = some hf →
      get_intent reg name = some hf) ∧
    (reg.get name = none → reg.get FALLBACK_INTENT = none →
      get_intent reg name = none) := by
  refine ⟨fun h hh => ?_, fun h hf hhf => ?_, fun h hf => ?_⟩
  · simp [get_intent, hh]
  · simp [get_intent, h, hhf]
  · simp [get_intent, h, hf]

/-- Witness for C3: a registry with one intent and a fallback resolves a
registered name, an unknown name, and (fallback removed) resolves to none. -/
theorem get_intent_resolution_witness :
    get_intent [("A", ⟨1, true⟩), ("FALLBACK_INTENT", ⟨2, true⟩)] "A" = some ⟨1, true⟩ ∧
    get_intent [("A", ⟨1, true⟩), ("FALLBACK_INTENT", ⟨2, true⟩)] "B" = some ⟨2, true⟩ ∧
    get_intent [("A", ⟨1, true⟩)] "B" = none := by
  refine ⟨?_, ?_, ?_⟩
  · exact (get_intent_resolution [("A", ⟨1, true⟩), ("FALLBACK_INTENT", ⟨2, true⟩)] "A").1
      ⟨1, true⟩ (by decide)
  · exact (get_intent_resolution [("A", ⟨1, true⟩), ("FALLBACK_INTENT", ⟨2, true⟩)] "B").2.1
      (by decide) ⟨2, true⟩ (by decide)
  · exact (get_intent_resolution [("A", ⟨1, true⟩)] "B").2.2 (by decide) (by decide)

/-- C7: `Context.__init__` derives `intent_name`, `locale`, `tokens` and
`attributesV2` from the request's context object (tokens and attributesV2
defaulting to empty dicts when absent); with a session object present,
`Context.session` holds its id, new flag and attributes; without one it is a
fresh session with id `None`, new flag `True` and no attributes. -/
theorem context_init_derivation (req : RequestJson) :
    ((context_init req).intent_name = req.context.intent) ∧
    ((context_init req).locale = req.context.locale) ∧
    (req.context.tokens = none → (context_init req).tokens = []) ∧
    (∀ t, req.context.tokens = some t → (context_init req).tokens = t) ∧
    (req.context.attributesV2 = none → (context_init req).attributesV2 = []) ∧
    (∀ a, req.context.attributesV2 = some a → (context_init req).attributesV2 = a) ∧
    (∀ s, req.session = some s →
      (context_init req).session =
        { session_id := s.id, new_session := s.new, attributes := s.attributes.getD [] }) ∧
    (req.session = none →
      (context_init req).session =
        { session_id := none, new_session := true, attributes := [] }) := by
  refine ⟨rfl, rfl, fun h => ?_, fun t h => ?_, fun h => ?_, fun a h => ?_,
    fun s h => ?_, fun h => ?_⟩ <;> simp [context_init, h]

/-- Witness for C7: a request with a session maps into a context holding the
session snapshot; one without a session gets a fresh session. -/
theorem context_init_derivation_witness :
    context_init { context := { intent := some "TELEKOM_Clock_GetTime", locale := some "de", tokens := some [("tok", "t1")], attributesV2 := some [("timezone", "Europe/Berlin")] }, session := some { new := false, id := some "12345", attributes := some [("key-1", "value-1")] } } =
      { intent_name := some "TELEKOM_Clock_GetTime", locale := some "de", tokens := [("tok", "t1")], attributesV2 := [("timezone", "Europe/Berlin")], session := { session_id := some "12345", new_session := false, attributes := [("key-1", "value-1")] } } ∧
    context_init { context := { intent := some "TELEKOM_Clock_GetTime", locale := some "de" } } =
      { intent_name := some "TELEKOM_Clock_GetTime", locale := some "de", tokens := [], attributesV2 := [], session := { session_id := none, new_session := true, attributes := [] } } := by
  constructor
  · have h := context_init_derivation { context := { intent := some "TELEKOM_Clock_GetTime", locale := some "de", tokens := some [("tok", "t1")], attributesV2 := some [("timezone", "Europe/Berlin")] }, session := some { new := false, id := some "12345", attributes := some [("key-1", "value-1")] } }
    have hs := h.2.2.2.2.2.2.1 { new := false, id := some "12345", attributes := some [("key-1", "value-1")] } rfl
    have ht := h.2.2.2.1 [("tok", "t1")] rfl
    have ha := h.2.2.2.2.2.1 [("timezone", "Europe/Berlin")] rfl
    exact ContextModel.ext h.1 h.2.1 ht ha hs
  · have h := context_init_derivation { context := { intent := some "TELEKOM_Clock_GetTime", locale := some "de" } }
    exact ContextModel.ext h.1 h.2.1 (h.2.2.1 rfl) (h.2.2.2.2.1 rfl)
      (h.2.2.2.2.2.2.2 rfl)

/-- C2: Producing a `Reprompt` stores the per-name counter in the session
as a string incremented by one, starting from "1" when absent or not a
number, as an ASK response; once the incremented count exceeds a non-zero
configured maximum, the counter is removed from the session and a terminal
TELL response with the stop text is produced instead. -/
theorem reprompt_counter (sess : SessionBag) (iname : String)
    (entity : Option String) (text stop_text : String) (maxR : Nat) :
    (PyDict.get sess (reprompt_name iname entity) = none →
      reprompt sess iname entity text stop_text maxR =
        (PyDict.set sess (reprompt_name iname entity) "1",
          { text := text, type_ := .ask })) ∧
    (∀ v, PyDict.get sess (reprompt_name iname entity) = some v → parse_count v = none →
      reprompt sess iname entity text stop_text maxR =
        (PyDict.set sess (reprompt_name iname entity) "1",
          { text := text, type_ := .ask })) ∧
    (∀ v n, PyDict.get sess (reprompt_name iname entity) = some v →
      parse_count v = some n → (maxR = 0 ∨ n + 1 ≤ maxR) →
      reprompt sess iname entity text stop_text maxR =
        (PyDict.set sess (reprompt_name iname entity) (toString (n + 1)),
          { text := text, type_ := .ask })) ∧
    (∀ v n, PyDict.get sess (reprompt_name iname entity) = some v →
      parse_count v = some n → maxR ≠ 0 → maxR < n + 1 →
      reprompt sess iname entity text stop_text maxR =
        (PyDict.erase sess (reprompt_name iname entity),
          { text := stop_text, type_ := .tell })) := by
  refine ⟨fun h => ?_, fun v h hv => ?_, fun v n h hv hle => ?_,
    fun v n h hv hne hgt => ?_⟩
  · have hc : ¬(maxR ≠ 0 ∧ 1 > maxR) := by omega
    simp only [reprompt, h]
    rw [if_neg hc]
    rfl
  · have hc : ¬(maxR ≠ 0 ∧ 1 > maxR) := by omega
    simp only [reprompt, h, hv]
    rw [if_neg hc]
    rfl
  · have hc : ¬(maxR ≠ 0 ∧ n + 1 > maxR) := by omega
    simp only [reprompt, h, hv]
    rw [if_neg hc]
  · have hc : maxR ≠ 0 ∧ n + 1 > maxR := ⟨hne, by omega⟩
    simp only [reprompt, h, hv]
    rw [if_pos hc]

/-- Witness for C2, matching tests/response_test.py:206-228: an absent
counter is stored as "1", a stored "1" becomes "2", a non-numeric value
restarts at "1", and with maximum 2 a stored "2" is removed with a TELL stop
text; an entity gets its own counter name. -/
theorem reprompt_counter_witness :
    reprompt [] "TELEKOM_Clock_GetTime" none "abc123" "" 0 =
      ([("TELEKOM_Clock_GetTime_reprompt_count", "1")],
        { text := "abc123", type_ := .ask }) ∧
    reprompt [("TELEKOM_Clock_GetTime_reprompt_count", "1")] "TELEKOM_Clock_GetTime" none "abc123" "" 0 =
      ([("TELEKOM_Clock_GetTime_reprompt_count", "2")],
        { text := "abc123", type_ := .ask }) ∧
    reprompt [("TELEKOM_Clock_GetTime_reprompt_count", "not a number")] "TELEKOM_Clock_GetTime" none "abc123" "" 0 =
      ([("TELEKOM_Clock_GetTime_reprompt_count", "1")],
        { text := "abc123", type_ := .ask }) ∧
    reprompt [("TELEKOM_Clock_GetTime_reprompt_count", "2")] "TELEKOM_Clock_GetTime" none "abc123" "321cba" 2 =
      ([], { text := "321cba", type_ := .tell }) ∧
    reprompt [] "TELEKOM_Clock_GetTime" (some "Time") "abc123" "" 0 =
      ([("TELEKOM_Clock_GetTime_Time_reprompt_count", "1")],
        { text := "abc123", type_ := .ask }) := by
  refine ⟨?_, ?_, ?_, ?_, ?_⟩
  · have h := (reprompt_counter [] "TELEKOM_Clock_GetTime" none "abc123" "" 0).1
      (by decide)
    simpa using h
  · have h := (reprompt_counter [("TELEKOM_Clock_GetTime_reprompt_count", "1")]
      "TELEKOM_Clock_GetTime" none "abc123" "" 0).2.2.1 "1" 1 (by decide) (by decide)
      (Or.inl rfl)
    simpa using h
  · have h := (reprompt_counter [("TELEKOM_Clock_GetTime_reprompt_count", "not a number")]
      "TELEKOM_Clock_GetTime" none "abc123" "" 0).2.1 "not a number" (by decide)
      (by decide)
    simpa using h
  · have h := (reprompt_counter [("TELEKOM_Clock_GetTime_reprompt_count", "2")]
      "TELEKOM_Clock_GetTime" none "abc123" "321cba" 2).2.2.2 "2" 2 (by decide)
      (by decide) (by decide) (by decide)
    simpa using h
  · have h := (reprompt_counter [] "TELEKOM_Clock_GetTime" (some "Time") "abc123" "" 0).1
      (by decide)
    simpa using h

/-- C10: `prepare_for_logging` preserves dict keys and element
order/count (tuples becoming lists), leaves every non-string value and every
string shorter than `LOG_ENTRY_MAX_STRING` unchanged, replaces every string
of length at least `LOG_ENTRY_MAX_STRING` by its first
`LOG_ENTRY_MAX_STRING` characters followed by `...`, and so bounds every
string value of the result by `LOG_ENTRY_MAX_STRING + 3`. -/
theorem prepare_for_logging_spec (m : Nat) (s : String) (n : Int)
    (entries : List (String × LogValue)) (elems : List LogValue) (v : LogValue) :
    (prepare_for_logging m (.dict entries) =
      .dict (entries.map fun p => (p.1, prepare_for_logging m p.2))) ∧
    (prepare_for_logging m (.list elems) =
      .list (elems.map (prepare_for_logging m))) ∧
    (prepare_for_logging m (.tuple elems) =
      .list (elems.map (prepare_for_logging m))) ∧
    (prepare_for_logging m (.scalar n) = .scalar n) ∧
    (s.length < m → prepare_for_logging m (.str s) = .str s) ∧
    (m ≤ s.length →
      prepare_for_logging m (.str s) = .str (String.mk (s.data.take m) ++ "...") ∧
      (String.mk (s.data.take m) ++ "...").length = m + 3) ∧
    (strings_bounded (m + 3) (prepare_for_logging m v) = true) := by
  refine ⟨?_, ?_, ?_, rfl, fun h => ?_, fun h => ⟨?_, ?_⟩, ?_⟩
  · rw [prepare_for_logging, log_copy, log_copy_entries_eq_map]
    rfl
  · rw [prepare_for_logging, log_copy, log_copy_list_eq_map]
    rfl
  · rw [prepare_for_logging, log_copy, log_copy_list_eq_map]
    rfl
  · rw [prepare_for_logging, log_copy, trim_string, if_pos h]
  · rw [prepare_for_logging, log_copy, trim_string, if_neg (by omega)]
  · rw [String.length_append]
    have h1 : (String.mk (s.data.take m)).length = (s.data.take m).length := rfl
    have h2 : ("..." : String).length = 3 := rfl
    have h3 : s.length = s.data.length := rfl
    rw [h1, h2, List.length_take]
    omega
  · exact strings_bounded_log_copy m v

/-- Witness for C10: with the maximum at 5, a 3-character string passes
unchanged, an 8-character string is cut to 5 characters plus dots, and a
nested record's strings end up bounded by 8. -/
theorem prepare_for_logging_spec_witness :
    prepare_for_logging 5 (.str "abc") = .str "abc" ∧
    prepare_for_logging 5 (.str "abcdefgh") = .str "abcde..." ∧
    strings_bounded 8 (prepare_for_logging 5 (.dict [("key", .list [.str "abcdefgh", .scalar 1])])) = true := by
  refine ⟨?_, ?_, ?_⟩
  · exact (prepare_for_logging_spec 5 "abc" 0 [] [] (.scalar 0)).2.2.2.2.1
      (by decide)
  · exact ((prepare_for_logging_spec 5 "abcdefgh" 0 [] [] (.scalar 0)).2.2.2.2.2.1
      (by decide)).1.trans rfl
  · exact (prepare_for_logging_spec 5 "" 0 [] []
      (.dict [("key", .list [.str "abcdefgh", .scalar 1])])).2.2.2.2.2.2

/-- C9: `Codec` round trip: injecting a span context into an empty dict
carrier and extracting yields equal `trace_id`, `span_id` and `testing`;
`Codec.extract` matches the `X-B3-TraceId`, `X-B3-SpanId` and `X-Testing`
header names case-insensitively; both `inject` and `extract` raise
`InvalidCarrierException` on a non-dict carrier. -/
theorem codec_inject_extract (sc : SpanContextM) (k : String) (v : Option String) :
    (codec_inject sc (.dict []) =
      .ok [(trace_header, sc.trace_id), (span_header, sc.span_id), (testing_header, sc.testing)]) ∧
    (codec_extract (.dict [(trace_header, sc.trace_id), (span_header, sc.span_id), (testing_header, sc.testing)]) = .ok sc) ∧
    (py_lower k = "x-b3-traceid" →
      codec_extract (.dict [(k, v)]) =
        .ok { trace_id := v, span_id := none, testing := none }) ∧
    (py_lower k = "x-b3-spanid" →
      codec_extract (.dict [(k, v)]) =
        .ok { trace_id := none, span_id := v, testing := none }) ∧
    (py_lower k = "x-testing" →
      codec_extract (.dict [(k, v)]) =
        .ok { trace_id := none, span_id := none, testing := v }) ∧
    (codec_inject sc .nonDict = .error ()) ∧
    (codec_extract .nonDict = .error ()) := by
  have h1 : py_lower "X-B3-TraceId" = "x-b3-traceid" := rfl
  have h2 : py_lower "X-B3-SpanId" = "x-b3-spanid" := rfl
  have h3 : py_lower "X-Testing" = "x-testing" := rfl
  refine ⟨rfl, rfl, fun hk => ?_, fun hk => ?_, fun hk => ?_, rfl, rfl⟩ <;>
    simp [codec_extract, PyDict.ofList, PyDict.set, PyDict.get, hk, h1, h2, h3,
      trace_header, span_header, testing_header]

/-- Witness for C9: extraction matches a mixed-case trace header name. -/
theorem codec_inject_extract_witness :
    codec_extract (.dict [("X-B3-TRACEID", some "0123")]) =
      .ok { trace_id := some "0123", span_id := none, testing := none } :=
  (codec_inject_extract ⟨none, none, none⟩ "X-B3-TRACEID" (some "0123")).2.2.1 rfl

/-- C6: `Skill.include` on a registry whose names are non-empty (as the
code guarantees): a name with a different registered handler raises
`ValueError` with the registry unchanged; the same handler again (same name,
or already registered under some name) is a no-op; a fresh name with an
unregistered function handler adds exactly that one entry. -/
theorem skill_include_registry (reg : Registry) (i : String) (h : Handler)
    (hwf : ∀ p ∈ reg, p.1 ≠ "") :
    (∀ existing, reg.get i = some existing → existing ≠ h →
      skill_include reg (some i) h = .valueError reg) ∧
    (reg.get i = some h → skill_include reg (some i) h = .ok reg) ∧
    (reg.get i = none → (∃ n, find_registered reg h = some n) →
      skill_include reg (some i) h = .ok reg) ∧
    (reg.get i = none → find_registered reg h = none → h.is_function = true →
      i ≠ "" → skill_include reg (some i) h = .ok (reg ++ [(i, h)])) := by
  refine ⟨fun ex hget hne => ?_, fun hget => ?_, fun hget hfr => ?_,
    fun hget hfr hfun hi => ?_⟩
  · simp [skill_include, hget, bne_iff_ne, hne]
  · obtain ⟨q, hq1, hq2⟩ := Option.map_eq_some'.mp hget
    have hqmem : q ∈ reg := List.mem_of_find?_eq_some hq1
    rcases hr : reg.find? (fun p => p.2 = h) with _ | r
    · rw [List.find?_eq_none] at hr
      exact absurd (by simpa using hq2) (by simpa using hr q hqmem)
    · have hr1 : r.1 ≠ "" := hwf r (List.mem_of_find?_eq_some hr)
      simp [skill_include, hget, find_registered, hr, hr1]
  · obtain ⟨n, hfr⟩ := hfr
    rcases hfr' : reg.find? (fun p => p.2 = h) with _ | r
    · rw [find_registered, hfr'] at hfr
      simp at hfr
    · have hr1 : r.1 ≠ "" := hwf r (List.mem_of_find?_eq_some hfr')
      simp [skill_include, hget, find_registered, hfr', hr1]
  · have hfind : reg.find? (fun p => p.1 = i) = none := Option.map_eq_none'.mp hget
    have hfind2 : reg.find? (fun p => p.2 = h) = none := Option.map_eq_none'.mp hfr
    have hany : (reg.any fun p => p.1 = i) = false := by
      rw [List.any_eq_false]
      intro x hx
      have := List.find?_eq_none.mp hfind x hx
      simpa using this
    simp [skill_include, hget, find_registered, hfind2, register_intent, hi,
      hfun, hany, dict_insert, intent_handler_decorate, bne_iff_ne]

/-- Witness for C6: on the one-entry registry mapping "A" to handler 1, a
conflicting handler for "A" raises, re-including handler 1 under "A" or
under "B" is a no-op, and a fresh pair is appended. -/
theorem skill_include_registry_witness :
    skill_include [("A", ⟨1, true⟩)] (some "A") ⟨2, true⟩ =
      .valueError [("A", ⟨1, true⟩)] ∧
    skill_include [("A", ⟨1, true⟩)] (some "A") ⟨1, true⟩ = .ok [("A", ⟨1, true⟩)] ∧
    skill_include [("A", ⟨1, true⟩)] (some "B") ⟨1, true⟩ = .ok [("A", ⟨1, true⟩)] ∧
    skill_include [("A", ⟨1, true⟩)] (some "B") ⟨2, true⟩ =
      .ok [("A", ⟨1, true⟩), ("B", ⟨2, true⟩)] := by
  have hwf : ∀ p ∈ [("A", (⟨1, true⟩ : Handler))], p.1 ≠ "" := by decide
  refine ⟨?_, ?_, ?_, ?_⟩
  · exact (skill_include_registry [("A", ⟨1, true⟩)] "A" ⟨2, true⟩ hwf).1
      ⟨1, true⟩ (by decide) (by decide)
  · exact (skill_include_registry [("A", ⟨1, true⟩)] "A" ⟨1, true⟩ hwf).2.1 (by decide)
  · exact (skill_include_registry [("A", ⟨1, true⟩)] "B" ⟨1, true⟩ hwf).2.2.1
      (by decide) ⟨"A", by decide⟩
  · exact (skill_include_registry [("A", ⟨1, true⟩)] "B" ⟨2, true⟩ hwf).2.2.2
      (by decide) (by decide) (by decide) (by decide)

/-- C4: `Intent._log_return_value` normalizes a handler's return value: a
`Response` is returned after merging the context's push messages, an
`ErrorResponse` is returned unchanged, a plain string is wrapped into a TELL
`Response` (with push messages merged), and any other return type raises
`ValueError`. -/
theorem log_return_value_normalizes (pm : PushMessages) (r : Response)
    (e : ErrorResponse) (s : String) :
    (∀ merged, append_push_messages pm r = .ok merged →
      log_return_value pm (.response r) = .ok (.response merged)) ∧
    (log_return_value pm (.errorResponse e) = .ok (.errorResponse e)) ∧
    (∀ merged, append_push_messages pm { text := s, type_ := .tell } = .ok merged →
      log_return_value pm (.str s) = .ok (.response merged) ∧
      merged.text = s ∧ merged.type_ = .tell) ∧
    (log_return_value pm .other = .error ()) := by
  refine ⟨fun merged h => ?_, rfl, fun merged h => ?_, rfl⟩
  · simp [log_return_value, h]
  · have hp := append_push_messages_ok_preserves pm _ merged h
    exact ⟨by simp [log_return_value, h], hp.1, hp.2⟩

/-- Witness for C4: with one push payload, a response and a string result are
merged and normalized, an error response passes through, and an unknown type
raises. -/
theorem log_return_value_normalizes_witness :
    log_return_value [("dev", [7])] (.response { text := "t" }) =
      .ok (.response { text := "t", push_notification := some ⟨"dev", 7⟩ }) ∧
    log_return_value [("dev", [7])] (.errorResponse ⟨999, "oops"⟩) =
      .ok (.errorResponse ⟨999, "oops"⟩) ∧
    log_return_value [("dev", [7])] (.str "hi") =
      .ok (.response { text := "hi", type_ := .tell, push_notification := some ⟨"dev", 7⟩ }) ∧
    log_return_value [("dev", [7])] .other = .error () := by
  have h := log_return_value_normalizes [("dev", [7])] { text := "t" } ⟨999, "oops"⟩ "hi"
  exact ⟨h.1 _ (by decide), h.2.1,
    (h.2.2.1 { text := "hi", type_ := .tell, push_notification := some ⟨"dev", 7⟩ }
      (by decide)).1, h.2.2.2⟩

/-- Counterexample for C5: with two push payloads in the context, a handler
raising `RequestException` does not make `Intent.__call__` return the canned
response; the merge in the except clause raises `ValueError` instead. -/
theorem intent_call_http_error_counterexample :
    intent_call [("dev", [7, 8])] (.raises .requestException) =
      .raisesValueError := by
  decide

/-- C5 (amended): `Intent.__call__`: when the handler raises
`RequestException`, `HTTPError` or `CircuitBreakerError` and the context's
push messages merge cleanly (at most one payload), the call returns a
`Response` carrying the canned `GENERIC_HTTP_ERROR_RESPONSE` text; when the
context holds more than one push payload, that merge itself raises
`ValueError`; any other exception raised by the handler propagates to the
caller unchanged. -/
theorem intent_call_exception_handling (pm : PushMessages) (e : CaughtExc) :
    (∀ merged,
      append_push_messages pm { text := GENERIC_HTTP_ERROR_RESPONSE, type_ := .tell } =
        .ok merged →
      intent_call pm (.raises e) = .returns (.response merged) ∧
      merged.text = GENERIC_HTTP_ERROR_RESPONSE) ∧
    ((flatten_push_messages pm).length ≥ 2 →
      intent_call pm (.raises e) = .raisesValueError) ∧
    (∀ msg, intent_call pm (.raisesOther msg) = .raisesOther msg) := by
  refine ⟨fun merged h => ?_, fun hlen => ?_, fun msg => rfl⟩
  · exact ⟨by simp [intent_call, h],
      (append_push_messages_ok_preserves pm _ merged h).1⟩
  · rcases hlast : (flatten_push_messages pm).getLast? with _ | m
    · rw [List.getLast?_eq_none_iff] at hlast
      simp [hlast] at hlen
    · simp [intent_call, append_push_messages, hlast, hlen]

/-- Witness for C5: one push payload gives the canned response with the
payload attached, two payloads raise, and an unrelated exception
propagates. -/
theorem intent_call_exception_handling_witness :
    intent_call [("dev", [7])] (.raises .httpError) =
      .returns (.response { text := GENERIC_HTTP_ERROR_RESPONSE, type_ := .tell, push_notification := some ⟨"dev", 7⟩ }) ∧
    intent_call [("dev", [7, 8])] (.raises .httpError) = .raisesValueError ∧
    intent_call [] (.raisesOther "KeyError") = .raisesOther "KeyError" := by
  have h := intent_call_exception_handling [("dev", [7])] CaughtExc.httpError
  have h2 := intent_call_exception_handling [("dev", [7, 8])] CaughtExc.httpError
  exact ⟨(h.1 { text := GENERIC_HTTP_ERROR_RESPONSE, type_ := .tell, push_notification := some ⟨"dev", 7⟩ } (by decide)).1,
    h2.2.1 (by decide),
    (intent_call_exception_handling [] CaughtExc.httpError).2.2 "KeyError"⟩

end SkillSdk
